import Mathlib

/-
Verification of the DB_Agent data-access wrapper (src/db/db_agent.py).

The agent owns an absolute path to a SQLite database file, a connection
handle and a cursor.  Every public operation connects on entry, performs
its work inside a try/except that logs and swallows every exception, and
disconnects in a finally block.

Shallow embedding: the ambient SQLite engine and filesystem are a
parameter (Env); the world holds the committed on-disk database content
plus two booleans saying whether directory creation and opening the
connection succeed.  A live connection carries the pending (uncommitted)
working copy of the database; commit publishes it to disk, rollback
resets it to the disk content, and closing a connection discards it.
executescript is the exception: it runs with no transaction control,
every script statement committing to disk as it completes, so a
mid-script failure leaves the earlier statements committed.
Python exceptions are modelled as Except values whose error carries the
state at raise time; each public method is the translation of the whole
Python method body, with the try/except/finally structure made explicit,
so the method returns Except.ok exactly when no exception escapes it.
-/

namespace MusicClient

/-- Cell values stored in database rows. -/
inductive Val where
  | int (n : Int)
  | str (s : String)
  | null
deriving DecidableEq

/-- A result row: the tuple of its cell values. -/
abbrev Row := List Val

/-- One table of the database: its name and its rows. -/
structure Table where
  name : String
  rows : List Row
deriving DecidableEq

/-- Committed content of the SQLite database file. -/
structure DBData where
  tables : List Table
deriving DecidableEq

/-- The content of a freshly created, empty database file. -/
def DBData.empty : DBData := ⟨[]⟩

/-- Python exceptions that the agent can encounter. -/
inductive Err where
  | attributeError
  | sqlError (msg : String)
  | fsError (msg : String)
deriving DecidableEq

/-- Ambient SQLite-engine and filesystem semantics, a parameter of the
embedding.  run executes one SQL statement (with optional bound
parameters) against a database content and returns the new content and
the fetched rows, or an error (a single failing statement is atomic and
has no effect); runScript executes a multi-statement script with no
transaction control, each statement committing as it completes, so on a
mid-script failure the error carries the content with the earlier
statements already applied; readFile reads a text file. -/
structure Env where
  run : String → Option (List Val) → DBData → Except Err (DBData × List Row)
  runScript : String → DBData → Except (Err × DBData) DBData
  readFile : String → Except Err String

/-- The world outside the agent: whether the parent directory of the
database path exists or can be created, whether opening the connection
succeeds, and the committed database file content (none when the file
does not exist). -/
structure World where
  dirOk : Bool
  connOk : Bool
  disk : Option DBData
deriving DecidableEq

/-- An open connection: its pending, not yet committed working copy of
the database content. -/
structure Conn where
  pending : DBData
deriving DecidableEq

/-- The fields of the DB_Agent object: the stored database path, the
connection handle and the cursor (None or set). -/
structure Agent where
  db_name : String
  conn : Option Conn
  cursor : Option Unit
deriving DecidableEq

/-- The full state a method acts on: the agent object plus the world. -/
structure S where
  ag : Agent
  w : World
deriving DecidableEq

/-- A path is absolute when it starts with the separator character. -/
def isAbsolute (p : String) : Bool :=
  match p.data with
  | c :: _ => c = Char.ofNat 47
  | [] => false

/-- Models os.path.abspath: resolves the path against the current
working directory, leaving already absolute paths alone (dot-segment
normalisation is not modelled). -/
def abspath (cwd p : String) : String :=
  if isAbsolute p then p else cwd ++ "/" ++ p

/-- DB_Agent.__init__: store the absolute path, with no connection and
no cursor. -/
def mkAgent (cwd db_name : String) : Agent :=
  ⟨abspath cwd db_name, none, none⟩

/-- The observable database content: the table data of the file, where a
missing file reads as the empty database. -/
def dbContent (w : World) : DBData := w.disk.getD DBData.empty

/-- DB_Agent.connect: create the parent directory if needed, open the
connection (creating an empty file when none exists) and a cursor over
it.  Any failure is caught and logged, leaving the fields unchanged. -/
def connect (s : S) : S :=
  if s.w.dirOk then
    if s.w.connOk then
      ⟨⟨s.ag.db_name, some ⟨s.w.disk.getD DBData.empty⟩, some ()⟩,
       ⟨s.w.dirOk, s.w.connOk, some (s.w.disk.getD DBData.empty)⟩⟩
    else s
  else s

/-- DB_Agent.disconnect: when a connection is open, close it and clear
both fields; otherwise only log a warning. -/
def disconnect (s : S) : S :=
  match s.ag.conn with
  | some _ => ⟨⟨s.ag.db_name, none, none⟩, s.w⟩
  | none => s

/-- self.cursor.execute(sql[, params]): requires a live cursor and
connection (an AttributeError or ProgrammingError otherwise), runs the
statement on the pending content and returns the fetched rows.  A
failing statement has no effect on the pending content. -/
def cursorExecute (env : Env) (s : S) (sql : String) (params : Option (List Val)) :
    Except (Err × S) (S × List Row) :=
  match s.ag.cursor, s.ag.conn with
  | some _, some c =>
    match env.run sql params c.pending with
    | Except.ok (d2, rows) => Except.ok (⟨⟨s.ag.db_name, some ⟨d2⟩, s.ag.cursor⟩, s.w⟩, rows)
    | Except.error e => Except.error (e, s)
  | _, _ => Except.error (Err.attributeError, s)

/-- self.cursor.executemany(sql, values): run the statement once per row
of values; on the first failing row the partial effects stay in the
pending content and the exception propagates. -/
def runMany (env : Env) (sql : String) :
    List (List Val) → DBData → Except (Err × DBData) DBData
  | [], d => Except.ok d
  | v :: vs, d =>
    match env.run sql (some v) d with
    | Except.ok (d2, _) => runMany env sql vs d2
    | Except.error e => Except.error (e, d)

/-- Cursor-level executemany against the agent state. -/
def cursorExecutemany (env : Env) (s : S) (sql : String) (values : List (List Val)) :
    Except (Err × S) S :=
  match s.ag.cursor, s.ag.conn with
  | some _, some c =>
    match runMany env sql values c.pending with
    | Except.ok d2 => Except.ok ⟨⟨s.ag.db_name, some ⟨d2⟩, s.ag.cursor⟩, s.w⟩
    | Except.error (e, dP) => Except.error (e, ⟨⟨s.ag.db_name, some ⟨dP⟩, s.ag.cursor⟩, s.w⟩)
  | _, _ => Except.error (Err.attributeError, s)

/-- self.cursor.executescript(schema): first issues an implicit COMMIT
of the pending content, then runs the script with no transaction
control, every statement committing to disk as it completes.  On
success the disk and the pending content both hold the script result;
on a mid-script failure they both hold the partial content with the
earlier statements already committed, which a later rollback cannot
undo. -/
def cursorExecutescript (env : Env) (s : S) (script : String) :
    Except (Err × S) S :=
  match s.ag.cursor, s.ag.conn with
  | some _, some c =>
    match env.runScript script c.pending with
    | Except.ok d2 =>
      Except.ok ⟨⟨s.ag.db_name, some ⟨d2⟩, s.ag.cursor⟩,
        ⟨s.w.dirOk, s.w.connOk, some d2⟩⟩
    | Except.error (e, dP) =>
      Except.error (e, ⟨⟨s.ag.db_name, some ⟨dP⟩, s.ag.cursor⟩,
        ⟨s.w.dirOk, s.w.connOk, some dP⟩⟩)
  | _, _ => Except.error (Err.attributeError, s)

/-- self.conn.commit(): publish the pending content to disk; an
AttributeError when the connection is None. -/
def commit (s : S) : Except (Err × S) S :=
  match s.ag.conn with
  | some c => Except.ok ⟨s.ag, ⟨s.w.dirOk, s.w.connOk, some c.pending⟩⟩
  | none => Except.error (Err.attributeError, s)

/-- The except-clause fragment `if self.conn: self.conn.rollback()`:
reset the pending content to the committed disk content when a
connection is open. -/
def rollbackIfConn (s : S) : S :=
  match s.ag.conn with
  | some _ => ⟨⟨s.ag.db_name, some ⟨s.w.disk.getD DBData.empty⟩, s.ag.cursor⟩, s.w⟩
  | none => s

/-- DB_Agent.execute: connect, then inside try run the statement (with
parameter binding only when params is truthy), commit; on exception log
and roll back if connected; finally disconnect. -/
def execute (env : Env) (s : S) (sql : String) (params : Option (List Val)) :
    Except (Err × S) S :=
  let s1 := connect s
  let body : Except (Err × S) S :=
    match (match params with
           | some (v :: vs) => cursorExecute env s1 sql (some (v :: vs))
           | _ => cursorExecute env s1 sql none) with
    | Except.ok (s2, _) => commit s2
    | Except.error es => Except.error es
  match body with
  | Except.ok s3 => Except.ok (disconnect s3)
  | Except.error (_, sE) => Except.ok (disconnect (rollbackIfConn sE))

/-- DB_Agent.fetch: connect, set data to None, inside try run the query
(parameter binding only when params is truthy) and fetch all rows; on
exception only log; finally disconnect and return data. -/
def fetch (env : Env) (s : S) (sql : String) (params : Option (List Val)) :
    Except (Err × S) (S × Option (List Row)) :=
  let s1 := connect s
  match (match params with
         | some (v :: vs) => cursorExecute env s1 sql (some (v :: vs))
         | _ => cursorExecute env s1 sql none) with
  | Except.ok (s2, rows) => Except.ok (disconnect s2, some rows)
  | Except.error (_, sE) => Except.ok (disconnect sE, none)

/-- The INSERT statement DB_Agent.insert builds from the mapping. -/
def insertSql (table : String) (data : List (String × Val)) : String :=
  "INSERT INTO " ++ table ++ " (" ++ String.intercalate ", " (data.map Prod.fst) ++
    ") VALUES (" ++ String.intercalate ", " (data.map fun _ => "?") ++ ")"

/-- DB_Agent.insert: connect, build the INSERT statement from the keys
of the mapping, execute it with the values bound positionally, commit;
on exception log and roll back if connected; finally disconnect. -/
def insert (env : Env) (s : S) (table : String) (data : List (String × Val)) :
    Except (Err × S) S :=
  let s1 := connect s
  let body : Except (Err × S) S :=
    match cursorExecute env s1 (insertSql table data) (some (data.map Prod.snd)) with
    | Except.ok (s2, _) => commit s2
    | Except.error es => Except.error es
  match body with
  | Except.ok s3 => Except.ok (disconnect s3)
  | Except.error (_, sE) => Except.ok (disconnect (rollbackIfConn sE))

/-- The UPDATE statement DB_Agent.update builds: a SET clause from the
keys and the condition string spliced in verbatim. -/
def updateSql (table : String) (data : List (String × Val)) (condition : String) : String :=
  "UPDATE " ++ table ++ " SET " ++
    String.intercalate ", " (data.map fun kv => kv.fst ++ " = ?") ++
    " WHERE " ++ condition

/-- DB_Agent.update: connect, build the UPDATE statement, execute it
with the values bound positionally, commit; on exception log and roll
back if connected; finally disconnect. -/
def update (env : Env) (s : S) (table : String) (data : List (String × Val))
    (condition : String) : Except (Err × S) S :=
  let s1 := connect s
  let body : Except (Err × S) S :=
    match cursorExecute env s1 (updateSql table data condition) (some (data.map Prod.snd)) with
    | Except.ok (s2, _) => commit s2
    | Except.error es => Except.error es
  match body with
  | Except.ok s3 => Except.ok (disconnect s3)
  | Except.error (_, sE) => Except.ok (disconnect (rollbackIfConn sE))

/-- The DELETE statement DB_Agent.delete builds, condition verbatim. -/
def deleteSql (table condition : String) : String :=
  "DELETE FROM " ++ table ++ " WHERE " ++ condition

/-- DB_Agent.delete: connect, build the DELETE statement, execute it
without parameters, commit; on exception log and roll back if connected;
finally disconnect. -/
def delete (env : Env) (s : S) (table condition : String) : Except (Err × S) S :=
  let s1 := connect s
  let body : Except (Err × S) S :=
    match cursorExecute env s1 (deleteSql table condition) none with
    | Except.ok (s2, _) => commit s2
    | Except.error es => Except.error es
  match body with
  | Except.ok s3 => Except.ok (disconnect s3)
  | Except.error (_, sE) => Except.ok (disconnect (rollbackIfConn sE))

/-- The parameterized INSERT template DB_Agent.bulk_insert builds: one
placeholder per column. -/
def bulkSql (table : String) (columns : List String) : String :=
  "INSERT INTO " ++ table ++ " (" ++ String.intercalate ", " columns ++
    ") VALUES (" ++ String.intercalate ", " (columns.map fun _ => "?") ++ ")"

/-- DB_Agent.bulk_insert: connect, build one INSERT template, run it
once per row of values via executemany, commit once; on exception log
and roll back if connected; finally disconnect. -/
def bulk_insert (env : Env) (s : S) (table : String) (columns : List String)
    (values : List (List Val)) : Except (Err × S) S :=
  let s1 := connect s
  let body : Except (Err × S) S :=
    match cursorExecutemany env s1 (bulkSql table columns) values with
    | Except.ok s2 => commit s2
    | Except.error es => Except.error es
  match body with
  | Except.ok s3 => Except.ok (disconnect s3)
  | Except.error (_, sE) => Except.ok (disconnect (rollbackIfConn sE))

/-- DB_Agent.initialize_db: connect, read the schema file, run it as a
script, commit; on exception log and roll back if connected; finally
disconnect. -/
def initialize_db (env : Env) (s : S) (schema_path : String) : Except (Err × S) S :=
  let s1 := connect s
  let body : Except (Err × S) S :=
    match env.readFile schema_path with
    | Except.ok schema =>
      match cursorExecutescript env s1 schema with
      | Except.ok s2 => commit s2
      | Except.error es => Except.error es
    | Except.error e => Except.error (e, s1)
  match body with
  | Except.ok s3 => Except.ok (disconnect s3)
  | Except.error (_, sE) => Except.ok (disconnect (rollbackIfConn sE))

/-- The catalog query DB_Agent.table_exists builds, with the table name
interpolated unescaped between single quotes. -/
def sq : String := String.singleton (Char.ofNat 39)

/-- The literal catalog query text of table_exists. -/
def catalogSql (table_name : String) : String :=
  "SELECT name FROM sqlite_master WHERE type=" ++ sq ++ "table" ++ sq ++
    " AND name=" ++ sq ++ table_name ++ sq

/-- Python truthiness of cursor.fetchone(): a row was returned and it is
a nonempty tuple. -/
def rowTruthy : Option Row → Bool
  | some (_ :: _) => true
  | _ => false

/-- DB_Agent.table_exists: connect, set exists to False, inside try run
the catalog query and set exists to the truthiness of fetchone(); on
exception only log; finally disconnect and return exists. -/
def table_exists (env : Env) (s : S) (table_name : String) :
    Except (Err × S) (S × Bool) :=
  let s1 := connect s
  match cursorExecute env s1 (catalogSql table_name) none with
  | Except.ok (s2, rows) => Except.ok (disconnect s2, rowTruthy rows.head?)
  | Except.error (_, sE) => Except.ok (disconnect sE, false)

/-- DB_Agent.nuke_db: disconnect, then delete the database file; a
missing file raises inside the try and is logged and swallowed. -/
def nuke_db (s : S) : Except (Err × S) S :=
  let s1 := disconnect s
  match s1.w.disk with
  | some _ => Except.ok ⟨s1.ag, ⟨s1.w.dirOk, s1.w.connOk, none⟩⟩
  | none => Except.ok s1

/-- The agent state every operation leaves behind when a connection was
opened: handle and cursor cleared, the disk as given. -/
def cleared (s : S) (disk : Option DBData) : S :=
  ⟨⟨s.ag.db_name, none, none⟩, ⟨s.w.dirOk, s.w.connOk, disk⟩⟩

/-- The effective parameter binding of the Python idiom `if params:`:
binding happens only when params is provided and truthy (nonempty). -/
def pyParams : Option (List Val) → Option (List Val)
  | some (v :: vs) => some (v :: vs)
  | _ => none

/-- Append one row to the first table of the given name, SQL INSERT
semantics for a single-row insert. -/
def addRowTables (t : String) (v : List Val) : List Table → List Table
  | [] => []
  | tb :: tbs =>
    if tb.name = t then ⟨tb.name, tb.rows ++ [v]⟩ :: tbs
    else tb :: addRowTables t v tbs

/-- Database content with one row appended to the named table. -/
def addRow (t : String) (v : List Val) (d : DBData) : DBData :=
  ⟨addRowTables t v d.tables⟩

/-- Whether the database content has a table of the given name. -/
def tableHas (d : DBData) (t : String) : Bool :=
  d.tables.any fun tb => tb.name = t

/-- Number of rows of the named table. -/
def rowCount (t : String) (d : DBData) : Nat :=
  match d.tables.find? (fun tb => tb.name = t) with
  | some tb => tb.rows.length
  | none => 0

/-- Sample database content with one populated table. -/
def dSongs : DBData := ⟨[⟨"songs", [[Val.str "Clair de Lune", Val.str "Debussy"]]⟩]⟩

/-- Sample world: directory and connection fine, database file present. -/
def wBase : World := ⟨true, true, some dSongs⟩

/-- Sample state: a freshly constructed, disconnected agent. -/
def sBase : S := ⟨⟨"/tmp/music.db", none, none⟩, wBase⟩

/-- Sample state with an open connection and cursor. -/
def sConn : S := ⟨⟨"/tmp/music.db", some ⟨dSongs⟩, some ()⟩, wBase⟩

/-- Engine on which every statement, script and file read fails, a
script failing on its very first statement (nothing committed yet). -/
def envFail : Env :=
  ⟨fun _ _ _ => Except.error (Err.sqlError "no such table"),
   fun _ d => Except.error (Err.sqlError "bad script", d),
   fun _ => Except.error (Err.fsError "missing file")⟩

/-- Engine on which every statement succeeds, changes nothing and
returns zero rows. -/
def envNil : Env :=
  ⟨fun _ _ d => Except.ok (d, []),
   fun _ d => Except.ok d,
   fun _ => Except.ok ""⟩

/-- Marker database content, distinguishable from the sample one. -/
def dMark : DBData := ⟨[⟨"marker", []⟩]⟩

/-- Engine whose schema script fails after its first statement: that
statement is already committed, leaving the marker content behind. -/
def envScriptFail : Env :=
  ⟨fun _ _ d => Except.ok (d, []),
   fun _ _ => Except.error (Err.sqlError "near line 2: syntax error", dMark),
   fun _ => Except.ok "CREATE TABLE marker (x); CREATE TABLE oops ("⟩

/-- Engine that distinguishes bound from unbound execution: an unbound
statement succeeds and leaves the marker content, a bound statement
fails. -/
def envC9 : Env :=
  ⟨fun _ p _ =>
     match p with
     | none => Except.ok (dMark, [])
     | some _ => Except.error (Err.sqlError "bound execution"),
   fun _ d => Except.ok d,
   fun _ => Except.ok ""⟩

/-- Engine on which a bound statement inserts its row into the songs
table, SQL INSERT semantics for the bulk-insert template. -/
def envBulk : Env :=
  ⟨fun _ p d =>
     match p with
     | some v => Except.ok (addRow "songs" v d, [])
     | none => Except.error (Err.sqlError "missing parameters"),
   fun _ d => Except.ok d,
   fun _ => Except.ok ""⟩

/-- Engine whose every query finds one single-column catalog row. -/
def envCatalog : Env :=
  ⟨fun _ _ d => Except.ok (d, [[Val.str "songs"]]),
   fun _ d => Except.ok d,
   fun _ => Except.ok ""⟩

theorem connect_ok (s : S) (hdir : s.w.dirOk = true) (hcon : s.w.connOk = true) :
    connect s = ⟨⟨s.ag.db_name, some ⟨dbContent s.w⟩, some ()⟩,
      ⟨s.w.dirOk, s.w.connOk, some (dbContent s.w)⟩⟩ := by
  simp [connect, dbContent, hdir, hcon]

theorem connect_fail (s : S) (h : s.w.dirOk = false ∨ s.w.connOk = false) :
    connect s = s := by
  unfold connect
  rcases h with h | h <;> simp [h]

theorem execute_run_ok (env : Env) (s : S) (sql : String) (params : Option (List Val))
    (d : DBData) (rows : List Row)
    (hdir : s.w.dirOk = true) (hcon : s.w.connOk = true)
    (hrun : env.run sql (pyParams params) (dbContent s.w) = Except.ok (d, rows)) :
    execute env s sql params = Except.ok (cleared s (some d)) := by
  unfold execute
  rw [connect_ok s hdir hcon]
  rcases params with _ | ⟨_ | ⟨v, vs⟩⟩ <;>
    simp only [pyParams, dbContent] at hrun <;>
    simp [cursorExecute, commit, disconnect, cleared, dbContent, hrun]

theorem execute_run_err (env : Env) (s : S) (sql : String) (params : Option (List Val))
    (e : Err)
    (hdir : s.w.dirOk = true) (hcon : s.w.connOk = true)
    (hrun : env.run sql (pyParams params) (dbContent s.w) = Except.error e) :
    execute env s sql params = Except.ok (cleared s (some (dbContent s.w))) := by
  unfold execute
  rw [connect_ok s hdir hcon]
  rcases params with _ | ⟨_ | ⟨v, vs⟩⟩ <;>
    simp only [pyParams, dbContent] at hrun <;>
    simp [cursorExecute, commit, disconnect, rollbackIfConn, cleared, dbContent, hrun]

theorem execute_noconn (env : Env) (s : S) (sql : String) (params : Option (List Val))
    (h0 : s.ag.conn = none) (h : s.w.dirOk = false ∨ s.w.connOk = false) :
    execute env s sql params = Except.ok s := by
  unfold execute
  rw [connect_fail s h]
  rcases params with _ | ⟨_ | ⟨v, vs⟩⟩ <;>
    cases hcur : s.ag.cursor <;>
    simp [cursorExecute, disconnect, rollbackIfConn, h0, hcur]

theorem fetch_run_ok (env : Env) (s : S) (sql : String) (params : Option (List Val))
    (d : DBData) (rows : List Row)
    (hdir : s.w.dirOk = true) (hcon : s.w.connOk = true)
    (hrun : env.run sql (pyParams params) (dbContent s.w) = Except.ok (d, rows)) :
    fetch env s sql params = Except.ok (cleared s (some (dbContent s.w)), some rows) := by
  unfold fetch
  rw [connect_ok s hdir hcon]
  rcases params with _ | ⟨_ | ⟨v, vs⟩⟩ <;>
    simp only [pyParams, dbContent] at hrun <;>
    simp [cursorExecute, disconnect, cleared, dbContent, hrun]

theorem fetch_run_err (env : Env) (s : S) (sql : String) (params : Option (List Val))
    (e : Err)
    (hdir : s.w.dirOk = true) (hcon : s.w.connOk = true)
    (hrun : env.run sql (pyParams params) (dbContent s.w) = Except.error e) :
    fetch env s sql params = Except.ok (cleared s (some (dbContent s.w)), none) := by
  unfold fetch
  rw [connect_ok s hdir hcon]
  rcases params with _ | ⟨_ | ⟨v, vs⟩⟩ <;>
    simp only [pyParams, dbContent] at hrun <;>
    simp [cursorExecute, disconnect, cleared, dbContent, hrun]

theorem fetch_noconn (env : Env) (s : S) (sql : String) (params : Option (List Val))
    (h0 : s.ag.conn = none) (h : s.w.dirOk = false ∨ s.w.connOk = false) :
    fetch env s sql params = Except.ok (s, none) := by
  unfold fetch
  rw [connect_fail s h]
  rcases params with _ | ⟨_ | ⟨v, vs⟩⟩ <;>
    cases hcur : s.ag.cursor <;>
    simp [cursorExecute, disconnect, h0, hcur]

theorem insert_run_ok (env : Env) (s : S) (table : String) (data : List (String × Val))
    (d : DBData) (rows : List Row)
    (hdir : s.w.dirOk = true) (hcon : s.w.connOk = true)
    (hrun : env.run (insertSql table data) (some (data.map Prod.snd)) (dbContent s.w) =
      Except.ok (d, rows)) :
    insert env s table data = Except.ok (cleared s (some d)) := by
  unfold insert
  rw [connect_ok s hdir hcon]
  simp only [dbContent] at hrun
  simp [cursorExecute, commit, disconnect, cleared, dbContent, hrun]

theorem insert_run_err (env : Env) (s : S) (table : String) (data : List (String × Val))
    (e : Err)
    (hdir : s.w.dirOk = true) (hcon : s.w.connOk = true)
    (hrun : env.run (insertSql table data) (some (data.map Prod.snd)) (dbContent s.w) =
      Except.error e) :
    insert env s table data = Except.ok (cleared s (some (dbContent s.w))) := by
  unfold insert
  rw [connect_ok s hdir hcon]
  simp only [dbContent] at hrun
  simp [cursorExecute, commit, disconnect, rollbackIfConn, cleared, dbContent, hrun]

theorem insert_noconn (env : Env) (s : S) (table : String) (data : List (String × Val))
    (h0 : s.ag.conn = none) (h : s.w.dirOk = false ∨ s.w.connOk = false) :
    insert env s table data = Except.ok s := by
  unfold insert
  rw [connect_fail s h]
  cases hcur : s.ag.cursor <;>
    simp [cursorExecute, disconnect, rollbackIfConn, h0, hcur]

theorem update_run_ok (env : Env) (s : S) (table : String) (data : List (String × Val))
    (condition : String) (d : DBData) (rows : List Row)
    (hdir : s.w.dirOk = true) (hcon : s.w.connOk = true)
    (hrun : env.run (updateSql table data condition) (some (data.map Prod.snd))
      (dbContent s.w) = Except.ok (d, rows)) :
    update env s table data condition = Except.ok (cleared s (some d)) := by
  unfold update
  rw [connect_ok s hdir hcon]
  simp only [dbContent] at hrun
  simp [cursorExecute, commit, disconnect, cleared, dbContent, hrun]

theorem update_run_err (env : Env) (s : S) (table : String) (data : List (String × Val))
    (condition : String) (e : Err)
    (hdir : s.w.dirOk = true) (hcon : s.w.connOk = true)
    (hrun : env.run (updateSql table data condition) (some (data.map Prod.snd))
      (dbContent s.w) = Except.error e) :
    update env s table data condition = Except.ok (cleared s (some (dbContent s.w))) := by
  unfold update
  rw [connect_ok s hdir hcon]
  simp only [dbContent] at hrun
  simp [cursorExecute, commit, disconnect, rollbackIfConn, cleared, dbContent, hrun]

theorem update_noconn (env : Env) (s : S) (table : String) (data : List (String × Val))
    (condition : String)
    (h0 : s.ag.conn = none) (h : s.w.dirOk = false ∨ s.w.connOk = false) :
    update env s table data condition = Except.ok s := by
  unfold update
  rw [connect_fail s h]
  cases hcur : s.ag.cursor <;>
    simp [cursorExecute, disconnect, rollbackIfConn, h0, hcur]

theorem delete_run_ok (env : Env) (s : S) (table condition : String)
    (d : DBData) (rows : List Row)
    (hdir : s.w.dirOk = true) (hcon : s.w.connOk = true)
    (hrun : env.run (deleteSql table condition) none (dbContent s.w) = Except.ok (d, rows)) :
    delete env s table condition = Except.ok (cleared s (some d)) := by
  unfold delete
  rw [connect_ok s hdir hcon]
  simp only [dbContent] at hrun
  simp [cursorExecute, commit, disconnect, cleared, dbContent, hrun]

theorem delete_run_err (env : Env) (s : S) (table condition : String) (e : Err)
    (hdir : s.w.dirOk = true) (hcon : s.w.connOk = true)
    (hrun : env.run (deleteSql table condition) none (dbContent s.w) = Except.error e) :
    delete env s table condition = Except.ok (cleared s (some (dbContent s.w))) := by
  unfold delete
  rw [connect_ok s hdir hcon]
  simp only [dbContent] at hrun
  simp [cursorExecute, commit, disconnect, rollbackIfConn, cleared, dbContent, hrun]

theorem delete_noconn (env : Env) (s : S) (table condition : String)
    (h0 : s.ag.conn = none) (h : s.w.dirOk = false ∨ s.w.connOk = false) :
    delete env s table condition = Except.ok s := by
  unfold delete
  rw [connect_fail s h]
  cases hcur : s.ag.cursor <;>
    simp [cursorExecute, disconnect, rollbackIfConn, h0, hcur]

theorem bulk_insert_run_ok (env : Env) (s : S) (table : String) (columns : List String)
    (values : List (List Val)) (d : DBData)
    (hdir : s.w.dirOk = true) (hcon : s.w.connOk = true)
    (hrun : runMany env (bulkSql table columns) values (dbContent s.w) = Except.ok d) :
    bulk_insert env s table columns values = Except.ok (cleared s (some d)) := by
  unfold bulk_insert
  rw [connect_ok s hdir hcon]
  simp only [dbContent] at hrun
  simp [cursorExecutemany, commit, disconnect, cleared, dbContent, hrun]

theorem bulk_insert_run_err (env : Env) (s : S) (table : String) (columns : List String)
    (values : List (List Val)) (e : Err) (dP : DBData)
    (hdir : s.w.dirOk = true) (hcon : s.w.connOk = true)
    (hrun : runMany env (bulkSql table columns) values (dbContent s.w) =
      Except.error (e, dP)) :
    bulk_insert env s table columns values =
      Except.ok (cleared s (some (dbContent s.w))) := by
  unfold bulk_insert
  rw [connect_ok s hdir hcon]
  simp only [dbContent] at hrun
  simp [cursorExecutemany, commit, disconnect, rollbackIfConn, cleared, dbContent, hrun]

theorem bulk_insert_noconn (env : Env) (s : S) (table : String) (columns : List String)
    (values : List (List Val))
    (h0 : s.ag.conn = none) (h : s.w.dirOk = false ∨ s.w.connOk = false) :
    bulk_insert env s table columns values = Except.ok s := by
  unfold bulk_insert
  rw [connect_fail s h]
  cases hcur : s.ag.cursor <;>
    simp [cursorExecutemany, disconnect, rollbackIfConn, h0, hcur]

theorem initialize_db_run_ok (env : Env) (s : S) (schema_path schema : String) (d : DBData)
    (hdir : s.w.dirOk = true) (hcon : s.w.connOk = true)
    (hread : env.readFile schema_path = Except.ok schema)
    (hscript : env.runScript schema (dbContent s.w) = Except.ok d) :
    initialize_db env s schema_path = Except.ok (cleared s (some d)) := by
  unfold initialize_db
  rw [connect_ok s hdir hcon]
  simp only [dbContent] at hscript
  simp [cursorExecutescript, commit, disconnect, cleared, dbContent, hread, hscript]

theorem initialize_db_read_err (env : Env) (s : S) (schema_path : String) (e : Err)
    (hdir : s.w.dirOk = true) (hcon : s.w.connOk = true)
    (hread : env.readFile schema_path = Except.error e) :
    initialize_db env s schema_path = Except.ok (cleared s (some (dbContent s.w))) := by
  unfold initialize_db
  rw [connect_ok s hdir hcon]
  simp [cursorExecutescript, disconnect, rollbackIfConn, cleared, dbContent, hread]

theorem initialize_db_script_err (env : Env) (s : S) (schema_path schema : String) (e : Err)
    (dP : DBData)
    (hdir : s.w.dirOk = true) (hcon : s.w.connOk = true)
    (hread : env.readFile schema_path = Except.ok schema)
    (hscript : env.runScript schema (dbContent s.w) = Except.error (e, dP)) :
    initialize_db env s schema_path = Except.ok (cleared s (some dP)) := by
  unfold initialize_db
  rw [connect_ok s hdir hcon]
  simp only [dbContent] at hscript
  simp [cursorExecutescript, disconnect, rollbackIfConn, cleared, dbContent, hread, hscript]

theorem initialize_db_noconn (env : Env) (s : S) (schema_path : String)
    (h0 : s.ag.conn = none) (h : s.w.dirOk = false ∨ s.w.connOk = false) :
    initialize_db env s schema_path = Except.ok s := by
  unfold initialize_db
  rw [connect_fail s h]
  cases hread : env.readFile schema_path <;>
    cases hcur : s.ag.cursor <;>
    simp [cursorExecutescript, disconnect, rollbackIfConn, h0, hcur, hread]

theorem table_exists_run_ok (env : Env) (s : S) (table_name : String)
    (d : DBData) (rows : List Row)
    (hdir : s.w.dirOk = true) (hcon : s.w.connOk = true)
    (hrun : env.run (catalogSql table_name) none (dbContent s.w) = Except.ok (d, rows)) :
    table_exists env s table_name =
      Except.ok (cleared s (some (dbContent s.w)), rowTruthy rows.head?) := by
  unfold table_exists
  rw [connect_ok s hdir hcon]
  simp only [dbContent] at hrun
  simp [cursorExecute, disconnect, cleared, dbContent, hrun]

theorem table_exists_run_err (env : Env) (s : S) (table_name : String) (e : Err)
    (hdir : s.w.dirOk = true) (hcon : s.w.connOk = true)
    (hrun : env.run (catalogSql table_name) none (dbContent s.w) = Except.error e) :
    table_exists env s table_name =
      Except.ok (cleared s (some (dbContent s.w)), false) := by
  unfold table_exists
  rw [connect_ok s hdir hcon]
  simp only [dbContent] at hrun
  simp [cursorExecute, disconnect, cleared, dbContent, hrun]

theorem table_exists_noconn (env : Env) (s : S) (table_name : String)
    (h0 : s.ag.conn = none) (h : s.w.dirOk = false ∨ s.w.connOk = false) :
    table_exists env s table_name = Except.ok (s, false) := by
  unfold table_exists
  rw [connect_fail s h]
  cases hcur : s.ag.cursor <;>
    simp [cursorExecute, disconnect, h0, hcur]

theorem nuke_db_some (s : S) (d : DBData) (hd : s.w.disk = some d) :
    nuke_db s = Except.ok ⟨(disconnect s).ag, ⟨s.w.dirOk, s.w.connOk, none⟩⟩ := by
  unfold nuke_db disconnect
  cases hc : s.ag.conn <;> simp [hc, hd]

theorem nuke_db_none (s : S) (hd : s.w.disk = none) :
    nuke_db s = Except.ok (disconnect s) := by
  unfold nuke_db disconnect
  cases hc : s.ag.conn <;> simp [hc, hd]

theorem execute_isOk (env : Env) (s : S) (sql : String) (params : Option (List Val))
    (h0 : s.ag.conn = none) : (execute env s sql params).isOk = true := by
  cases hd : s.w.dirOk
  · rw [execute_noconn env s sql params h0 (Or.inl hd)]; rfl
  · cases hc : s.w.connOk
    · rw [execute_noconn env s sql params h0 (Or.inr hc)]; rfl
    · cases hrun : env.run sql (pyParams params) (dbContent s.w) with
      | ok dr =>
        obtain ⟨d, rows⟩ := dr
        rw [execute_run_ok env s sql params d rows hd hc hrun]; rfl
      | error e => rw [execute_run_err env s sql params e hd hc hrun]; rfl

theorem fetch_isOk (env : Env) (s : S) (sql : String) (params : Option (List Val))
    (h0 : s.ag.conn = none) : (fetch env s sql params).isOk = true := by
  cases hd : s.w.dirOk
  · rw [fetch_noconn env s sql params h0 (Or.inl hd)]; rfl
  · cases hc : s.w.connOk
    · rw [fetch_noconn env s sql params h0 (Or.inr hc)]; rfl
    · cases hrun : env.run sql (pyParams params) (dbContent s.w) with
      | ok dr =>
        obtain ⟨d, rows⟩ := dr
        rw [fetch_run_ok env s sql params d rows hd hc hrun]; rfl
      | error e => rw [fetch_run_err env s sql params e hd hc hrun]; rfl

theorem insert_isOk (env : Env) (s : S) (table : String) (data : List (String × Val))
    (h0 : s.ag.conn = none) : (insert env s table data).isOk = true := by
  cases hd : s.w.dirOk
  · rw [insert_noconn env s table data h0 (Or.inl hd)]; rfl
  · cases hc : s.w.connOk
    · rw [insert_noconn env s table data h0 (Or.inr hc)]; rfl
    · cases hrun : env.run (insertSql table data) (some (data.map Prod.snd)) (dbContent s.w) with
      | ok dr =>
        obtain ⟨d, rows⟩ := dr
        rw [insert_run_ok env s table data d rows hd hc hrun]; rfl
      | error e => rw [insert_run_err env s table data e hd hc hrun]; rfl

theorem update_isOk (env : Env) (s : S) (table : String) (data : List (String × Val))
    (condition : String) (h0 : s.ag.conn = none) :
    (update env s table data condition).isOk = true := by
  cases hd : s.w.dirOk
  · rw [update_noconn env s table data condition h0 (Or.inl hd)]; rfl
  · cases hc : s.w.connOk
    · rw [update_noconn env s table data condition h0 (Or.inr hc)]; rfl
    · cases hrun : env.run (updateSql table data condition) (some (data.map Prod.snd))
        (dbContent s.w) with
      | ok dr =>
        obtain ⟨d, rows⟩ := dr
        rw [update_run_ok env s table data condition d rows hd hc hrun]; rfl
      | error e => rw [update_run_err env s table data condition e hd hc hrun]; rfl

theorem delete_isOk (env : Env) (s : S) (table condition : String)
    (h0 : s.ag.conn = none) : (delete env s table condition).isOk = true := by
  cases hd : s.w.dirOk
  · rw [delete_noconn env s table condition h0 (Or.inl hd)]; rfl
  · cases hc : s.w.connOk
    · rw [delete_noconn env s table condition h0 (Or.inr hc)]; rfl
    · cases hrun : env.run (deleteSql table condition) none (dbContent s.w) with
      | ok dr =>
        obtain ⟨d, rows⟩ := dr
        rw [delete_run_ok env s table condition d rows hd hc hrun]; rfl
      | error e => rw [delete_run_err env s table condition e hd hc hrun]; rfl

theorem bulk_insert_isOk (env : Env) (s : S) (table : String) (columns : List String)
    (values : List (List Val)) (h0 : s.ag.conn = none) :
    (bulk_insert env s table columns values).isOk = true := by
  cases hd : s.w.dirOk
  · rw [bulk_insert_noconn env s table columns values h0 (Or.inl hd)]; rfl
  · cases hc : s.w.connOk
    · rw [bulk_insert_noconn env s table columns values h0 (Or.inr hc)]; rfl
    · cases hrun : runMany env (bulkSql table columns) values (dbContent s.w) with
      | ok d => rw [bulk_insert_run_ok env s table columns values d hd hc hrun]; rfl
      | error ed =>
        obtain ⟨e, dP⟩ := ed
        rw [bulk_insert_run_err env s table columns values e dP hd hc hrun]; rfl

theorem initialize_db_isOk (env : Env) (s : S) (schema_path : String)
    (h0 : s.ag.conn = none) : (initialize_db env s schema_path).isOk = true := by
  cases hd : s.w.dirOk
  · rw [initialize_db_noconn env s schema_path h0 (Or.inl hd)]; rfl
  · cases hc : s.w.connOk
    · rw [initialize_db_noconn env s schema_path h0 (Or.inr hc)]; rfl
    · cases hread : env.readFile schema_path with
      | ok schema =>
        cases hscript : env.runScript schema (dbContent s.w) with
        | ok d => rw [initialize_db_run_ok env s schema_path schema d hd hc hread hscript]; rfl
        | error ed =>
          obtain ⟨e, dP⟩ := ed
          rw [initialize_db_script_err env s schema_path schema e dP hd hc hread hscript]; rfl
      | error e => rw [initialize_db_read_err env s schema_path e hd hc hread]; rfl

theorem table_exists_isOk (env : Env) (s : S) (table_name : String)
    (h0 : s.ag.conn = none) : (table_exists env s table_name).isOk = true := by
  cases hd : s.w.dirOk
  · rw [table_exists_noconn env s table_name h0 (Or.inl hd)]; rfl
  · cases hc : s.w.connOk
    · rw [table_exists_noconn env s table_name h0 (Or.inr hc)]; rfl
    · cases hrun : env.run (catalogSql table_name) none (dbContent s.w) with
      | ok dr =>
        obtain ⟨d, rows⟩ := dr
        rw [table_exists_run_ok env s table_name d rows hd hc hrun]; rfl
      | error e => rw [table_exists_run_err env s table_name e hd hc hrun]; rfl

theorem execute_disk (env : Env) (s : S) (sql : String) (params : Option (List Val))
    (h0 : s.ag.conn = none) :
    ∀ s2, execute env s sql params = Except.ok s2 →
      dbContent s2.w = dbContent s.w ∨
      ∃ d rows, env.run sql (pyParams params) (dbContent s.w) = Except.ok (d, rows) ∧
        s2.w.disk = some d := by
  intro s2 hs2
  cases hd : s.w.dirOk
  · rw [execute_noconn env s sql params h0 (Or.inl hd)] at hs2
    obtain rfl := Except.ok.inj hs2
    left; rfl
  · cases hc : s.w.connOk
    · rw [execute_noconn env s sql params h0 (Or.inr hc)] at hs2
      obtain rfl := Except.ok.inj hs2
      left; rfl
    · cases hrun : env.run sql (pyParams params) (dbContent s.w) with
      | ok dr =>
        obtain ⟨d, rows⟩ := dr
        rw [execute_run_ok env s sql params d rows hd hc hrun] at hs2
        obtain rfl := Except.ok.inj hs2
        right; exact ⟨d, rows, rfl, rfl⟩
      | error e =>
        rw [execute_run_err env s sql params e hd hc hrun] at hs2
        obtain rfl := Except.ok.inj hs2
        left; rfl

theorem insert_disk (env : Env) (s : S) (table : String) (data : List (String × Val))
    (h0 : s.ag.conn = none) :
    ∀ s2, insert env s table data = Except.ok s2 →
      dbContent s2.w = dbContent s.w ∨
      ∃ d rows, env.run (insertSql table data) (some (data.map Prod.snd)) (dbContent s.w) =
        Except.ok (d, rows) ∧ s2.w.disk = some d := by
  intro s2 hs2
  cases hd : s.w.dirOk
  · rw [insert_noconn env s table data h0 (Or.inl hd)] at hs2
    obtain rfl := Except.ok.inj hs2
    left; rfl
  · cases hc : s.w.connOk
    · rw [insert_noconn env s table data h0 (Or.inr hc)] at hs2
      obtain rfl := Except.ok.inj hs2
      left; rfl
    · cases hrun : env.run (insertSql table data) (some (data.map Prod.snd)) (dbContent s.w) with
      | ok dr =>
        obtain ⟨d, rows⟩ := dr
        rw [insert_run_ok env s table data d rows hd hc hrun] at hs2
        obtain rfl := Except.ok.inj hs2
        right; exact ⟨d, rows, rfl, rfl⟩
      | error e =>
        rw [insert_run_err env s table data e hd hc hrun] at hs2
        obtain rfl := Except.ok.inj hs2
        left; rfl

theorem update_disk (env : Env) (s : S) (table : String) (data : List (String × Val))
    (condition : String) (h0 : s.ag.conn = none) :
    ∀ s2, update env s table data condition = Except.ok s2 →
      dbContent s2.w = dbContent s.w ∨
      ∃ d rows, env.run (updateSql table data condition) (some (data.map Prod.snd))
        (dbContent s.w) = Except.ok (d, rows) ∧ s2.w.disk = some d := by
  intro s2 hs2
  cases hd : s.w.dirOk
  · rw [update_noconn env s table data condition h0 (Or.inl hd)] at hs2
    obtain rfl := Except.ok.inj hs2
    left; rfl
  · cases hc : s.w.connOk
    · rw [update_noconn env s table data condition h0 (Or.inr hc)] at hs2
      obtain rfl := Except.ok.inj hs2
      left; rfl
    · cases hrun : env.run (updateSql table data condition) (some (data.map Prod.snd))
        (dbContent s.w) with
      | ok dr =>
        obtain ⟨d, rows⟩ := dr
        rw [update_run_ok env s table data condition d rows hd hc hrun] at hs2
        obtain rfl := Except.ok.inj hs2
        right; exact ⟨d, rows, rfl, rfl⟩
      | error e =>
        rw [update_run_err env s table data condition e hd hc hrun] at hs2
        obtain rfl := Except.ok.inj hs2
        left; rfl

theorem delete_disk (env : Env) (s : S) (table condition : String)
    (h0 : s.ag.conn = none) :
    ∀ s2, delete env s table condition = Except.ok s2 →
      dbContent s2.w = dbContent s.w ∨
      ∃ d rows, env.run (deleteSql table condition) none (dbContent s.w) =
        Except.ok (d, rows) ∧ s2.w.disk = some d := by
  intro s2 hs2
  cases hd : s.w.dirOk
  · rw [delete_noconn env s table condition h0 (Or.inl hd)] at hs2
    obtain rfl := Except.ok.inj hs2
    left; rfl
  · cases hc : s.w.connOk
    · rw [delete_noconn env s table condition h0 (Or.inr hc)] at hs2
      obtain rfl := Except.ok.inj hs2
      left; rfl
    · cases hrun : env.run (deleteSql table condition) none (dbContent s.w) with
      | ok dr =>
        obtain ⟨d, rows⟩ := dr
        rw [delete_run_ok env s table condition d rows hd hc hrun] at hs2
        obtain rfl := Except.ok.inj hs2
        right; exact ⟨d, rows, rfl, rfl⟩
      | error e =>
        rw [delete_run_err env s table condition e hd hc hrun] at hs2
        obtain rfl := Except.ok.inj hs2
        left; rfl

theorem bulk_insert_disk (env : Env) (s : S) (table : String) (columns : List String)
    (values : List (List Val)) (h0 : s.ag.conn = none) :
    ∀ s2, bulk_insert env s table columns values = Except.ok s2 →
      dbContent s2.w = dbContent s.w ∨
      ∃ d, runMany env (bulkSql table columns) values (dbContent s.w) = Except.ok d ∧
        s2.w.disk = some d := by
  intro s2 hs2
  cases hd : s.w.dirOk
  · rw [bulk_insert_noconn env s table columns values h0 (Or.inl hd)] at hs2
    obtain rfl := Except.ok.inj hs2
    left; rfl
  · cases hc : s.w.connOk
    · rw [bulk_insert_noconn env s table columns values h0 (Or.inr hc)] at hs2
      obtain rfl := Except.ok.inj hs2
      left; rfl
    · cases hrun : runMany env (bulkSql table columns) values (dbContent s.w) with
      | ok d =>
        rw [bulk_insert_run_ok env s table columns values d hd hc hrun] at hs2
        obtain rfl := Except.ok.inj hs2
        right; exact ⟨d, rfl, rfl⟩
      | error ed =>
        obtain ⟨e, dP⟩ := ed
        rw [bulk_insert_run_err env s table columns values e dP hd hc hrun] at hs2
        obtain rfl := Except.ok.inj hs2
        left; rfl

theorem initialize_db_disk (env : Env) (s : S) (schema_path : String)
    (h0 : s.ag.conn = none) :
    ∀ s2, initialize_db env s schema_path = Except.ok s2 →
      dbContent s2.w = dbContent s.w ∨
      (∃ schema d, env.readFile schema_path = Except.ok schema ∧
        env.runScript schema (dbContent s.w) = Except.ok d ∧ s2.w.disk = some d) ∨
      (∃ schema e dP, env.readFile schema_path = Except.ok schema ∧
        env.runScript schema (dbContent s.w) = Except.error (e, dP) ∧
        s2.w.disk = some dP) := by
  intro s2 hs2
  cases hd : s.w.dirOk
  · rw [initialize_db_noconn env s schema_path h0 (Or.inl hd)] at hs2
    obtain rfl := Except.ok.inj hs2
    left; rfl
  · cases hc : s.w.connOk
    · rw [initialize_db_noconn env s schema_path h0 (Or.inr hc)] at hs2
      obtain rfl := Except.ok.inj hs2
      left; rfl
    · cases hread : env.readFile schema_path with
      | ok schema =>
        cases hscript : env.runScript schema (dbContent s.w) with
        | ok d =>
          rw [initialize_db_run_ok env s schema_path schema d hd hc hread hscript] at hs2
          obtain rfl := Except.ok.inj hs2
          right; left; exact ⟨schema, d, rfl, hscript, rfl⟩
        | error ed =>
          obtain ⟨e, dP⟩ := ed
          rw [initialize_db_script_err env s schema_path schema e dP hd hc hread hscript] at hs2
          obtain rfl := Except.ok.inj hs2
          right; right; exact ⟨schema, e, dP, rfl, hscript, rfl⟩
      | error e =>
        rw [initialize_db_read_err env s schema_path e hd hc hread] at hs2
        obtain rfl := Except.ok.inj hs2
        left; rfl

theorem fetch_data (env : Env) (s : S) (sql : String) (params : Option (List Val))
    (h0 : s.ag.conn = none) :
    ∀ s2 r, fetch env s sql params = Except.ok (s2, r) →
      r = none ∨
      ∃ d rows, env.run sql (pyParams params) (dbContent s.w) = Except.ok (d, rows) ∧
        r = some rows := by
  intro s2 r hs2
  cases hd : s.w.dirOk
  · rw [fetch_noconn env s sql params h0 (Or.inl hd)] at hs2
    obtain ⟨h1, h2⟩ := Prod.mk.inj (Except.ok.inj hs2)
    left; exact h2.symm
  · cases hc : s.w.connOk
    · rw [fetch_noconn env s sql params h0 (Or.inr hc)] at hs2
      obtain ⟨h1, h2⟩ := Prod.mk.inj (Except.ok.inj hs2)
      left; exact h2.symm
    · cases hrun : env.run sql (pyParams params) (dbContent s.w) with
      | ok dr =>
        obtain ⟨d, rows⟩ := dr
        rw [fetch_run_ok env s sql params d rows hd hc hrun] at hs2
        obtain ⟨h1, h2⟩ := Prod.mk.inj (Except.ok.inj hs2)
        right; exact ⟨d, rows, rfl, h2.symm⟩
      | error e =>
        rw [fetch_run_err env s sql params e hd hc hrun] at hs2
        obtain ⟨h1, h2⟩ := Prod.mk.inj (Except.ok.inj hs2)
        left; exact h2.symm

theorem table_exists_bool (env : Env) (s : S) (table_name : String)
    (h0 : s.ag.conn = none) :
    ∀ s2 b, table_exists env s table_name = Except.ok (s2, b) →
      b = false ∨
      ∃ d rows, env.run (catalogSql table_name) none (dbContent s.w) = Except.ok (d, rows) ∧
        b = rowTruthy rows.head? := by
  intro s2 b hs2
  cases hd : s.w.dirOk
  · rw [table_exists_noconn env s table_name h0 (Or.inl hd)] at hs2
    obtain ⟨h1, h2⟩ := Prod.mk.inj (Except.ok.inj hs2)
    left; exact h2.symm
  · cases hc : s.w.connOk
    · rw [table_exists_noconn env s table_name h0 (Or.inr hc)] at hs2
      obtain ⟨h1, h2⟩ := Prod.mk.inj (Except.ok.inj hs2)
      left; exact h2.symm
    · cases hrun : env.run (catalogSql table_name) none (dbContent s.w) with
      | ok dr =>
        obtain ⟨d, rows⟩ := dr
        rw [table_exists_run_ok env s table_name d rows hd hc hrun] at hs2
        obtain ⟨h1, h2⟩ := Prod.mk.inj (Except.ok.inj hs2)
        right; exact ⟨d, rows, rfl, h2.symm⟩
      | error e =>
        rw [table_exists_run_err env s table_name e hd hc hrun] at hs2
        obtain ⟨h1, h2⟩ := Prod.mk.inj (Except.ok.inj hs2)
        left; exact h2.symm

theorem addRowTables_any (t : String) (v : List Val) :
    ∀ l : List Table, (addRowTables t v l).any (fun tb => tb.name = t) =
      l.any (fun tb => tb.name = t) := by
  intro l
  induction l with
  | nil => rfl
  | cons tb tbs ih =>
    by_cases h : tb.name = t
    · simp [addRowTables, h]
    · simp [addRowTables, h, ih]

theorem tableHas_addRow (t : String) (v : List Val) (d : DBData) :
    tableHas (addRow t v d) t = tableHas d t := by
  unfold tableHas addRow
  exact addRowTables_any t v d.tables

theorem rowCount_addRow (t : String) (v : List Val) (d : DBData)
    (h : tableHas d t = true) : rowCount t (addRow t v d) = rowCount t d + 1 := by
  obtain ⟨l⟩ := d
  simp only [tableHas, List.any_eq_true] at h
  simp only [rowCount, addRow]
  induction l with
  | nil => simp at h
  | cons tb tbs ih =>
    by_cases htb : tb.name = t
    · simp [addRowTables, htb, List.find?_cons_of_pos]
    · simp only [addRowTables, if_neg htb]
      rw [List.find?_cons_of_neg, List.find?_cons_of_neg]
      · apply ih
        obtain ⟨tb2, htb2, hname⟩ := h
        rcases List.mem_cons.mp htb2 with rfl | hmem
        · exact absurd (of_decide_eq_true hname) htb
        · exact ⟨tb2, hmem, hname⟩
      · simpa using htb
      · simpa using htb

theorem runMany_fold (env : Env) (sql : String) (t : String) :
    ∀ (values : List (List Val)) (d : DBData),
      (∀ d2 v, v ∈ values → env.run sql (some v) d2 = Except.ok (addRow t v d2, [])) →
      runMany env sql values d =
        Except.ok (values.foldl (fun dd v => addRow t v dd) d) := by
  intro values
  induction values with
  | nil => intro d h; rfl
  | cons v vs ih =>
    intro d h
    unfold runMany
    rw [h d v (List.mem_cons_self v vs)]
    exact ih (addRow t v d) (fun d2 u hu => h d2 u (List.mem_cons_of_mem _ hu))

theorem rowCount_fold (t : String) :
    ∀ (values : List (List Val)) (d : DBData), tableHas d t = true →
      rowCount t (values.foldl (fun dd v => addRow t v dd) d) =
        rowCount t d + values.length := by
  intro values
  induction values with
  | nil => intro d h; simp
  | cons v vs ih =>
    intro d h
    simp only [List.foldl_cons, List.length_cons]
    rw [ih (addRow t v d) (by rw [tableHas_addRow]; exact h)]
    rw [rowCount_addRow t v d h]
    omega

theorem execute_ends (env : Env) (s : S) (sql : String) (params : Option (List Val))
    (h0 : s.ag.conn = none) :
    ∀ s2, execute env s sql params = Except.ok s2 → s2 = s ∨ ∃ x, s2 = cleared s x := by
  intro s2 hs2
  cases hd : s.w.dirOk
  · rw [execute_noconn env s sql params h0 (Or.inl hd)] at hs2
    obtain rfl := Except.ok.inj hs2
    exact Or.inl rfl
  · cases hc : s.w.connOk
    · rw [execute_noconn env s sql params h0 (Or.inr hc)] at hs2
      obtain rfl := Except.ok.inj hs2
      exact Or.inl rfl
    · cases hrun : env.run sql (pyParams params) (dbContent s.w) with
      | ok dr =>
        obtain ⟨d, rows⟩ := dr
        rw [execute_run_ok env s sql params d rows hd hc hrun] at hs2
        obtain rfl := Except.ok.inj hs2
        exact Or.inr ⟨some d, rfl⟩
      | error e =>
        rw [execute_run_err env s sql params e hd hc hrun] at hs2
        obtain rfl := Except.ok.inj hs2
        exact Or.inr ⟨some (dbContent s.w), rfl⟩

theorem fetch_ends (env : Env) (s : S) (sql : String) (params : Option (List Val))
    (h0 : s.ag.conn = none) :
    ∀ s2 r, fetch env s sql params = Except.ok (s2, r) → s2 = s ∨ ∃ x, s2 = cleared s x := by
  intro s2 r hs2
  cases hd : s.w.dirOk
  · rw [fetch_noconn env s sql params h0 (Or.inl hd)] at hs2
    obtain ⟨h1, h2⟩ := Prod.mk.inj (Except.ok.inj hs2)
    exact Or.inl h1.symm
  · cases hc : s.w.connOk
    · rw [fetch_noconn env s sql params h0 (Or.inr hc)] at hs2
      obtain ⟨h1, h2⟩ := Prod.mk.inj (Except.ok.inj hs2)
      exact Or.inl h1.symm
    · cases hrun : env.run sql (pyParams params) (dbContent s.w) with
      | ok dr =>
        obtain ⟨d, rows⟩ := dr
        rw [fetch_run_ok env s sql params d rows hd hc hrun] at hs2
        obtain ⟨h1, h2⟩ := Prod.mk.inj (Except.ok.inj hs2)
        exact Or.inr ⟨some (dbContent s.w), h1.symm⟩
      | error e =>
        rw [fetch_run_err env s sql params e hd hc hrun] at hs2
        obtain ⟨h1, h2⟩ := Prod.mk.inj (Except.ok.inj hs2)
        exact Or.inr ⟨some (dbContent s.w), h1.symm⟩

theorem insert_ends (env : Env) (s : S) (table : String) (data : List (String × Val))
    (h0 : s.ag.conn = none) :
    ∀ s2, insert env s table data = Except.ok s2 → s2 = s ∨ ∃ x, s2 = cleared s x := by
  intro s2 hs2
  cases hd : s.w.dirOk
  · rw [insert_noconn env s table data h0 (Or.inl hd)] at hs2
    obtain rfl := Except.ok.inj hs2
    exact Or.inl rfl
  · cases hc : s.w.connOk
    · rw [insert_noconn env s table data h0 (Or.inr hc)] at hs2
      obtain rfl := Except.ok.inj hs2
      exact Or.inl rfl
    · cases hrun : env.run (insertSql table data) (some (data.map Prod.snd)) (dbContent s.w) with
      | ok dr =>
        obtain ⟨d, rows⟩ := dr
        rw [insert_run_ok env s table data d rows hd hc hrun] at hs2
        obtain rfl := Except.ok.inj hs2
        exact Or.inr ⟨some d, rfl⟩
      | error e =>
        rw [insert_run_err env s table data e hd hc hrun] at hs2
        obtain rfl := Except.ok.inj hs2
        exact Or.inr ⟨some (dbContent s.w), rfl⟩

theorem update_ends (env : Env) (s : S) (table : String) (data : List (String × Val))
    (condition : String) (h0 : s.ag.conn = none) :
    ∀ s2, update env s table data condition = Except.ok s2 →
      s2 = s ∨ ∃ x, s2 = cleared s x := by
  intro s2 hs2
  cases hd : s.w.dirOk
  · rw [update_noconn env s table data condition h0 (Or.inl hd)] at hs2
    obtain rfl := Except.ok.inj hs2
    exact Or.inl rfl
  · cases hc : s.w.connOk
    · rw [update_noconn env s table data condition h0 (Or.inr hc)] at hs2
      obtain rfl := Except.ok.inj hs2
      exact Or.inl rfl
    · cases hrun : env.run (updateSql table data condition) (some (data.map Prod.snd))
        (dbContent s.w) with
      | ok dr =>
        obtain ⟨d, rows⟩ := dr
        rw [update_run_ok env s table data condition d rows hd hc hrun] at hs2
        obtain rfl := Except.ok.inj hs2
        exact Or.inr ⟨some d, rfl⟩
      | error e =>
        rw [update_run_err env s table data condition e hd hc hrun] at hs2
        obtain rfl := Except.ok.inj hs2
        exact Or.inr ⟨some (dbContent s.w), rfl⟩

theorem delete_ends (env : Env) (s : S) (table condition : String)
    (h0 : s.ag.conn = none) :
    ∀ s2, delete env s table condition = Except.ok s2 → s2 = s ∨ ∃ x, s2 = cleared s x := by
  intro s2 hs2
  cases hd : s.w.dirOk
  · rw [delete_noconn env s table condition h0 (Or.inl hd)] at hs2
    obtain rfl := Except.ok.inj hs2
    exact Or.inl rfl
  · cases hc : s.w.connOk
    · rw [delete_noconn env s table condition h0 (Or.inr hc)] at hs2
      obtain rfl := Except.ok.inj hs2
      exact Or.inl rfl
    · cases hrun : env.run (deleteSql table condition) none (dbContent s.w) with
      | ok dr =>
        obtain ⟨d, rows⟩ := dr
        rw [delete_run_ok env s table condition d rows hd hc hrun] at hs2
        obtain rfl := Except.ok.inj hs2
        exact Or.inr ⟨some d, rfl⟩
      | error e =>
        rw [delete_run_err env s table condition e hd hc hrun] at hs2
        obtain rfl := Except.ok.inj hs2
        exact Or.inr ⟨some (dbContent s.w), rfl⟩

theorem bulk_insert_ends (env : Env) (s : S) (table : String) (columns : List String)
    (values : List (List Val)) (h0 : s.ag.conn = none) :
    ∀ s2, bulk_insert env s table columns values = Except.ok s2 →
      s2 = s ∨ ∃ x, s2 = cleared s x := by
  intro s2 hs2
  cases hd : s.w.dirOk
  · rw [bulk_insert_noconn env s table columns values h0 (Or.inl hd)] at hs2
    obtain rfl := Except.ok.inj hs2
    exact Or.inl rfl
  · cases hc : s.w.connOk
    · rw [bulk_insert_noconn env s table columns values h0 (Or.inr hc)] at hs2
      obtain rfl := Except.ok.inj hs2
      exact Or.inl rfl
    · cases hrun : runMany env (bulkSql table columns) values (dbContent s.w) with
      | ok d =>
        rw [bulk_insert_run_ok env s table columns values d hd hc hrun] at hs2
        obtain rfl := Except.ok.inj hs2
        exact Or.inr ⟨some d, rfl⟩
      | error ed =>
        obtain ⟨e, dP⟩ := ed
        rw [bulk_insert_run_err env s table columns values e dP hd hc hrun] at hs2
        obtain rfl := Except.ok.inj hs2
        exact Or.inr ⟨some (dbContent s.w), rfl⟩

theorem initialize_db_ends (env : Env) (s : S) (schema_path : String)
    (h0 : s.ag.conn = none) :
    ∀ s2, initialize_db env s schema_path = Except.ok s2 →
      s2 = s ∨ ∃ x, s2 = cleared s x := by
  intro s2 hs2
  cases hd : s.w.dirOk
  · rw [initialize_db_noconn env s schema_path h0 (Or.inl hd)] at hs2
    obtain rfl := Except.ok.inj hs2
    exact Or.inl rfl
  · cases hc : s.w.connOk
    · rw [initialize_db_noconn env s schema_path h0 (Or.inr hc)] at hs2
      obtain rfl := Except.ok.inj hs2
      exact Or.inl rfl
    · cases hread : env.readFile schema_path with
      | ok schema =>
        cases hscript : env.runScript schema (dbContent s.w) with
        | ok d =>
          rw [initialize_db_run_ok env s schema_path schema d hd hc hread hscript] at hs2
          obtain rfl := Except.ok.inj hs2
          exact Or.inr ⟨some d, rfl⟩
        | error ed =>
          obtain ⟨e, dP⟩ := ed
          rw [initialize_db_script_err env s schema_path schema e dP hd hc hread hscript] at hs2
          obtain rfl := Except.ok.inj hs2
          exact Or.inr ⟨some dP, rfl⟩
      | error e =>
        rw [initialize_db_read_err env s schema_path e hd hc hread] at hs2
        obtain rfl := Except.ok.inj hs2
        exact Or.inr ⟨some (dbContent s.w), rfl⟩

theorem table_exists_ends (env : Env) (s : S) (table_name : String)
    (h0 : s.ag.conn = none) :
    ∀ s2 b, table_exists env s table_name = Except.ok (s2, b) →
      s2 = s ∨ ∃ x, s2 = cleared s x := by
  intro s2 b hs2
  cases hd : s.w.dirOk
  · rw [table_exists_noconn env s table_name h0 (Or.inl hd)] at hs2
    obtain ⟨h1, h2⟩ := Prod.mk.inj (Except.ok.inj hs2)
    exact Or.inl h1.symm
  · cases hc : s.w.connOk
    · rw [table_exists_noconn env s table_name h0 (Or.inr hc)] at hs2
      obtain ⟨h1, h2⟩ := Prod.mk.inj (Except.ok.inj hs2)
      exact Or.inl h1.symm
    · cases hrun : env.run (catalogSql table_name) none (dbContent s.w) with
      | ok dr =>
        obtain ⟨d, rows⟩ := dr
        rw [table_exists_run_ok env s table_name d rows hd hc hrun] at hs2
        obtain ⟨h1, h2⟩ := Prod.mk.inj (Except.ok.inj hs2)
        exact Or.inr ⟨some (dbContent s.w), h1.symm⟩
      | error e =>
        rw [table_exists_run_err env s table_name e hd hc hrun] at hs2
        obtain ⟨h1, h2⟩ := Prod.mk.inj (Except.ok.inj hs2)
        exact Or.inr ⟨some (dbContent s.w), h1.symm⟩

theorem nuke_db_ends (s : S) :
    ∀ s2, nuke_db s = Except.ok s2 → s2.ag = (disconnect s).ag := by
  intro s2 hs2
  cases hd : s.w.disk with
  | some d =>
    rw [nuke_db_some s d hd] at hs2
    obtain rfl := Except.ok.inj hs2
    rfl
  | none =>
    rw [nuke_db_none s hd] at hs2
    obtain rfl := Except.ok.inj hs2
    rfl

theorem connect_db_name (s : S) : (connect s).ag.db_name = s.ag.db_name := by
  unfold connect
  cases hd : s.w.dirOk <;> cases hc : s.w.connOk <;> simp [hd, hc]

theorem disconnect_db_name (s : S) : (disconnect s).ag.db_name = s.ag.db_name := by
  unfold disconnect
  cases hc : s.ag.conn <;> simp [hc]

theorem disconnect_of_none (s : S) (h0 : s.ag.conn = none) : disconnect s = s := by
  unfold disconnect
  rw [h0]

theorem isAbsolute_abspath (cwd p : String) (h : isAbsolute cwd = true) :
    isAbsolute (abspath cwd p) = true := by
  unfold abspath
  by_cases hp : isAbsolute p
  · simp [hp]
  · simp only [hp, Bool.false_eq_true, if_false]
    unfold isAbsolute at h ⊢
    cases hc : cwd.data with
    | nil => rw [hc] at h; simp at h
    | cons c cs =>
      rw [hc] at h
      have hdata : (cwd ++ "/" ++ p).data = c :: (cs ++ "/".data ++ p.data) := by
        show (cwd.data ++ "/".data ++ p.data) = c :: (cs ++ "/".data ++ p.data)
        rw [hc]
        simp
      rw [hdata]
      simpa using h

/-- C1 amended: every public operation (initialize_db, execute, fetch,
insert, update, delete, bulk_insert, table_exists) of a disconnected
agent returns normally for every input and every engine behaviour (no
exception reaches the caller); the database content after execute,
insert, update, delete or bulk_insert is either unchanged (every
failure path of theirs rolls back to the committed content) or exactly
the committed result of a successful run of their statement; for
initialize_db, whose script runs with no transaction control and whose
statements commit as they complete, the content ends unchanged, or
fully applied, or at the partial result of a mid-script failure whose
already committed prefix the rollback cannot undo; a fetch that did not
complete a successful query returns none and a table_exists that did
not complete a successful query returns false. -/
theorem claim_C1 (env : Env) (s : S)
    (sql schema_path table condition table_name : String)
    (params : Option (List Val)) (data : List (String × Val)) (columns : List String)
    (values : List (List Val)) (h0 : s.ag.conn = none) :
    ((initialize_db env s schema_path).isOk = true ∧
      (execute env s sql params).isOk = true ∧
      (fetch env s sql params).isOk = true ∧
      (insert env s table data).isOk = true ∧
      (update env s table data condition).isOk = true ∧
      (delete env s table condition).isOk = true ∧
      (bulk_insert env s table columns values).isOk = true ∧
      (table_exists env s table_name).isOk = true) ∧
    (∀ s2, initialize_db env s schema_path = Except.ok s2 →
      dbContent s2.w = dbContent s.w ∨
      (∃ schema d, env.readFile schema_path = Except.ok schema ∧
        env.runScript schema (dbContent s.w) = Except.ok d ∧ s2.w.disk = some d) ∨
      (∃ schema e dP, env.readFile schema_path = Except.ok schema ∧
        env.runScript schema (dbContent s.w) = Except.error (e, dP) ∧
        s2.w.disk = some dP)) ∧
    (∀ s2, execute env s sql params = Except.ok s2 →
      dbContent s2.w = dbContent s.w ∨
      ∃ d rows, env.run sql (pyParams params) (dbContent s.w) = Except.ok (d, rows) ∧
        s2.w.disk = some d) ∧
    (∀ s2, insert env s table data = Except.ok s2 →
      dbContent s2.w = dbContent s.w ∨
      ∃ d rows, env.run (insertSql table data) (some (data.map Prod.snd)) (dbContent s.w) =
        Except.ok (d, rows) ∧ s2.w.disk = some d) ∧
    (∀ s2, update env s table data condition = Except.ok s2 →
      dbContent s2.w = dbContent s.w ∨
      ∃ d rows, env.run (updateSql table data condition) (some (data.map Prod.snd))
        (dbContent s.w) = Except.ok (d, rows) ∧ s2.w.disk = some d) ∧
    (∀ s2, delete env s table condition = Except.ok s2 →
      dbContent s2.w = dbContent s.w ∨
      ∃ d rows, env.run (deleteSql table condition) none (dbContent s.w) =
        Except.ok (d, rows) ∧ s2.w.disk = some d) ∧
    (∀ s2, bulk_insert env s table columns values = Except.ok s2 →
      dbContent s2.w = dbContent s.w ∨
      ∃ d, runMany env (bulkSql table columns) values (dbContent s.w) = Except.ok d ∧
        s2.w.disk = some d) ∧
    (∀ s2 r, fetch env s sql params = Except.ok (s2, r) →
      r = none ∨
      ∃ d rows, env.run sql (pyParams params) (dbContent s.w) = Except.ok (d, rows) ∧
        r = some rows) ∧
    (∀ s2 b, table_exists env s table_name = Except.ok (s2, b) →
      b = false ∨
      ∃ d rows, env.run (catalogSql table_name) none (dbContent s.w) = Except.ok (d, rows) ∧
        b = rowTruthy rows.head?) :=
  ⟨⟨initialize_db_isOk env s schema_path h0, execute_isOk env s sql params h0,
    fetch_isOk env s sql params h0, insert_isOk env s table data h0,
    update_isOk env s table data condition h0, delete_isOk env s table condition h0,
    bulk_insert_isOk env s table columns values h0, table_exists_isOk env s table_name h0⟩,
   initialize_db_disk env s schema_path h0, execute_disk env s sql params h0,
   insert_disk env s table data h0, update_disk env s table data condition h0,
   delete_disk env s table condition h0, bulk_insert_disk env s table columns values h0,
   fetch_data env s sql params h0, table_exists_bool env s table_name h0⟩

/-- C1 witness: the failure scenario of the specification, an INSERT
into a nonexistent table with every statement failing: the call returns
normally and the database content is unchanged. -/
theorem claim_C1_witness :
    (execute envFail sBase "INSERT INTO nonexistent_table (x) VALUES (?)"
      (some [Val.int 1])).isOk = true ∧
    dbContent (cleared sBase (some dSongs)).w = dbContent sBase.w := by
  obtain ⟨hok, _, hexec, _⟩ := claim_C1 envFail sBase
    "INSERT INTO nonexistent_table (x) VALUES (?)" "" "" "" ""
    (some [Val.int 1]) [] [] [] rfl
  refine ⟨hok.2.1, ?_⟩
  have h := hexec (cleared sBase (some dSongs)) rfl
  rcases h with h | ⟨d, rows, hrun, hdisk⟩
  · exact h
  · exact absurd hrun (by simp [envFail])

/-- C1 counterexample: initialize_db on a schema script that fails on
its second statement does not leave the database state unchanged: the
first statement is already committed when the failure occurs, the
rollback cannot undo it, and the call returns with the partial marker
content on disk, different from the initial content. -/
theorem claim_C1_counterexample :
    envScriptFail.runScript "CREATE TABLE marker (x); CREATE TABLE oops ("
      (dbContent sBase.w) =
      Except.error (Err.sqlError "near line 2: syntax error", dMark) ∧
    initialize_db envScriptFail sBase "schema.sql" =
      Except.ok (cleared sBase (some dMark)) ∧
    dbContent (cleared sBase (some dMark)).w ≠ dbContent sBase.w := by
  exact ⟨rfl, rfl, by decide⟩

/-- C2: after any public operation of an agent that starts disconnected
(no connection, no cursor), the connection handle and the cursor are
both cleared, on every exit path. -/
theorem claim_C2 (env : Env) (s : S)
    (sql schema_path table condition table_name : String)
    (params : Option (List Val)) (data : List (String × Val)) (columns : List String)
    (values : List (List Val)) (h0 : s.ag.conn = none) (h1 : s.ag.cursor = none) :
    (∀ s2, initialize_db env s schema_path = Except.ok s2 →
      s2.ag.conn = none ∧ s2.ag.cursor = none) ∧
    (∀ s2, execute env s sql params = Except.ok s2 →
      s2.ag.conn = none ∧ s2.ag.cursor = none) ∧
    (∀ s2 r, fetch env s sql params = Except.ok (s2, r) →
      s2.ag.conn = none ∧ s2.ag.cursor = none) ∧
    (∀ s2, insert env s table data = Except.ok s2 →
      s2.ag.conn = none ∧ s2.ag.cursor = none) ∧
    (∀ s2, update env s table data condition = Except.ok s2 →
      s2.ag.conn = none ∧ s2.ag.cursor = none) ∧
    (∀ s2, delete env s table condition = Except.ok s2 →
      s2.ag.conn = none ∧ s2.ag.cursor = none) ∧
    (∀ s2, bulk_insert env s table columns values = Except.ok s2 →
      s2.ag.conn = none ∧ s2.ag.cursor = none) ∧
    (∀ s2 b, table_exists env s table_name = Except.ok (s2, b) →
      s2.ag.conn = none ∧ s2.ag.cursor = none) ∧
    (∀ s2, nuke_db s = Except.ok s2 →
      s2.ag.conn = none ∧ s2.ag.cursor = none) := by
  refine ⟨?_, ?_, ?_, ?_, ?_, ?_, ?_, ?_, ?_⟩
  · intro s2 h
    rcases initialize_db_ends env s schema_path h0 s2 h with rfl | ⟨x, rfl⟩
    · exact ⟨h0, h1⟩
    · exact ⟨rfl, rfl⟩
  · intro s2 h
    rcases execute_ends env s sql params h0 s2 h with rfl | ⟨x, rfl⟩
    · exact ⟨h0, h1⟩
    · exact ⟨rfl, rfl⟩
  · intro s2 r h
    rcases fetch_ends env s sql params h0 s2 r h with rfl | ⟨x, rfl⟩
    · exact ⟨h0, h1⟩
    · exact ⟨rfl, rfl⟩
  · intro s2 h
    rcases insert_ends env s table data h0 s2 h with rfl | ⟨x, rfl⟩
    · exact ⟨h0, h1⟩
    · exact ⟨rfl, rfl⟩
  · intro s2 h
    rcases update_ends env s table data condition h0 s2 h with rfl | ⟨x, rfl⟩
    · exact ⟨h0, h1⟩
    · exact ⟨rfl, rfl⟩
  · intro s2 h
    rcases delete_ends env s table condition h0 s2 h with rfl | ⟨x, rfl⟩
    · exact ⟨h0, h1⟩
    · exact ⟨rfl, rfl⟩
  · intro s2 h
    rcases bulk_insert_ends env s table columns values h0 s2 h with rfl | ⟨x, rfl⟩
    · exact ⟨h0, h1⟩
    · exact ⟨rfl, rfl⟩
  · intro s2 b h
    rcases table_exists_ends env s table_name h0 s2 b h with rfl | ⟨x, rfl⟩
    · exact ⟨h0, h1⟩
    · exact ⟨rfl, rfl⟩
  · intro s2 h
    have h2 := nuke_db_ends s s2 h
    rw [disconnect_of_none s h0] at h2
    rw [h2]
    exact ⟨h0, h1⟩

/-- C2 witness: a concrete execute leaves the sample agent with both the
connection handle and the cursor cleared. -/
theorem claim_C2_witness :
    (cleared sBase (some dSongs)).ag.conn = none ∧
    (cleared sBase (some dSongs)).ag.cursor = none := by
  obtain ⟨_, hexec, _⟩ := claim_C2 envNil sBase "SELECT 1" "" "" "" ""
    none [] [] [] rfl rfl
  exact hexec (cleared sBase (some dSongs)) rfl

/-- C8: disconnect is idempotent: when a connection is open it closes it
and clears both the handle and the cursor leaving the world untouched,
when none is open it changes nothing (only a warning is logged), and
disconnecting twice equals disconnecting once. -/
theorem claim_C8 (s : S) :
    (s.ag.conn.isSome = true →
      (disconnect s).ag.conn = none ∧ (disconnect s).ag.cursor = none ∧
        (disconnect s).w = s.w) ∧
    (s.ag.conn = none → disconnect s = s) ∧
    disconnect (disconnect s) = disconnect s := by
  cases hc : s.ag.conn <;> simp [disconnect, hc]

/-- C8 witness: disconnect clears a connected sample agent and is the
identity on a disconnected one. -/
theorem claim_C8_witness :
    ((disconnect sConn).ag.conn = none ∧ (disconnect sConn).ag.cursor = none ∧
      (disconnect sConn).w = sConn.w) ∧
    disconnect sBase = sBase := by
  exact ⟨(claim_C8 sConn).1 rfl, (claim_C8 sBase).2.1 rfl⟩

/-- C3 counterexample: on the same state and query, a failing fetch
returns none while a successful fetch of zero rows returns some [],
and these two result values are not equal, so a caller observing the
return value can distinguish the two cases. -/
theorem claim_C3_counterexample :
    fetch envFail sBase "SELECT title FROM songs WHERE artist = x" none =
      Except.ok (cleared sBase (some dSongs), none) ∧
    fetch envNil sBase "SELECT title FROM songs WHERE artist = x" none =
      Except.ok (cleared sBase (some dSongs), some []) ∧
    (none : Option (List Row)) ≠ some [] := by
  exact ⟨rfl, rfl, by simp⟩

/-- C3 amended: a failing fetch returns none and a successful fetch
whose query matched zero rows returns the empty row list; both are
empty-equivalent falsy values but are distinguishable, the non-none
result appearing exactly when the query succeeded. -/
theorem claim_C3_amended (env : Env) (s : S) (sql : String) (params : Option (List Val))
    (h0 : s.ag.conn = none) :
    (∀ s2 r, fetch env s sql params = Except.ok (s2, r) →
      r = none ∨
      ∃ d rows, env.run sql (pyParams params) (dbContent s.w) = Except.ok (d, rows) ∧
        r = some rows) ∧
    (∀ e, env.run sql (pyParams params) (dbContent s.w) = Except.error e →
      s.w.dirOk = true → s.w.connOk = true →
      fetch env s sql params = Except.ok (cleared s (some (dbContent s.w)), none)) ∧
    (∀ d, env.run sql (pyParams params) (dbContent s.w) = Except.ok (d, []) →
      s.w.dirOk = true → s.w.connOk = true →
      fetch env s sql params = Except.ok (cleared s (some (dbContent s.w)), some [])) ∧
    some ([] : List Row) ≠ (none : Option (List Row)) := by
  refine ⟨fetch_data env s sql params h0, ?_, ?_, by simp⟩
  · intro e h hdir hcon
    exact fetch_run_err env s sql params e hdir hcon h
  · intro d h hdir hcon
    exact fetch_run_ok env s sql params d [] hdir hcon h

/-- C3 amended witness: the amended claim instantiated on the sample
state with a failing engine and a zero-row engine. -/
theorem claim_C3_amended_witness :
    fetch envFail sBase "SELECT title FROM songs" none =
      Except.ok (cleared sBase (some dSongs), none) ∧
    fetch envNil sBase "SELECT title FROM songs" none =
      Except.ok (cleared sBase (some dSongs), some []) := by
  refine ⟨?_, ?_⟩
  · exact (claim_C3_amended envFail sBase "SELECT title FROM songs" none rfl).2.1
      (Err.sqlError "no such table") rfl rfl rfl
  · exact (claim_C3_amended envNil sBase "SELECT title FROM songs" none rfl).2.2.1
      dSongs rfl rfl rfl

/-- C4: for every table name and nonempty mapping, insert builds
exactly the statement INSERT INTO table (k1, k2, ...) VALUES (?, ?, ...)
with the keys in the mapping iteration order, one placeholder per value,
binds the values positionally in that order, and commits on success. -/
theorem claim_C4 (env : Env) (s : S) (table : String) (data : List (String × Val))
    (_hne : data ≠ []) (hdir : s.w.dirOk = true) (hcon : s.w.connOk = true) :
    (data.map fun _ => "?").length = (data.map Prod.snd).length ∧
    ∀ d rows,
      env.run ("INSERT INTO " ++ table ++ " (" ++
          String.intercalate ", " (data.map Prod.fst) ++ ") VALUES (" ++
          String.intercalate ", " (data.map fun _ => "?") ++ ")")
        (some (data.map Prod.snd)) (dbContent s.w) = Except.ok (d, rows) →
      insert env s table data = Except.ok (cleared s (some d)) := by
  refine ⟨by simp, ?_⟩
  intro d rows hrun
  exact insert_run_ok env s table data d rows hdir hcon hrun

/-- C4 witness: the concrete scenario of the specification, inserting a
song row on an engine that accepts the statement. -/
theorem claim_C4_witness :
    insert envNil sBase "songs"
      [("title", Val.str "Clair de Lune"), ("artist", Val.str "Debussy")] =
      Except.ok (cleared sBase (some dSongs)) := by
  exact (claim_C4 envNil sBase "songs"
    [("title", Val.str "Clair de Lune"), ("artist", Val.str "Debussy")]
    (by simp) rfl rfl).2 dSongs [] rfl

/-- C5: for every table name, mapping and condition string, update
builds exactly the statement UPDATE table SET k1 = ?, k2 = ?, ... WHERE
condition, with the condition spliced in verbatim and unescaped and only
the mapping values bound positionally in key iteration order; it commits
on success and rolls back on failure leaving the content unchanged. -/
theorem claim_C5 (env : Env) (s : S) (table : String) (data : List (String × Val))
    (condition : String) (hdir : s.w.dirOk = true) (hcon : s.w.connOk = true) :
    (∀ d rows,
      env.run ("UPDATE " ++ table ++ " SET " ++
          String.intercalate ", " (data.map fun kv => kv.fst ++ " = ?") ++
          " WHERE " ++ condition)
        (some (data.map Prod.snd)) (dbContent s.w) = Except.ok (d, rows) →
      update env s table data condition = Except.ok (cleared s (some d))) ∧
    (∀ e,
      env.run ("UPDATE " ++ table ++ " SET " ++
          String.intercalate ", " (data.map fun kv => kv.fst ++ " = ?") ++
          " WHERE " ++ condition)
        (some (data.map Prod.snd)) (dbContent s.w) = Except.error e →
      update env s table data condition =
        Except.ok (cleared s (some (dbContent s.w)))) := by
  refine ⟨?_, ?_⟩
  · intro d rows hrun
    exact update_run_ok env s table data condition d rows hdir hcon hrun
  · intro e hrun
    exact update_run_err env s table data condition e hdir hcon hrun

/-- C5 witness: the concrete update scenario of the specification, on a
successful engine and on a failing engine. -/
theorem claim_C5_witness :
    update envNil sBase "songs" [("artist", Val.str "C. Debussy")]
      "title = x" = Except.ok (cleared sBase (some dSongs)) ∧
    update envFail sBase "songs" [("artist", Val.str "C. Debussy")]
      "title = x" = Except.ok (cleared sBase (some dSongs)) := by
  refine ⟨?_, ?_⟩
  · exact (claim_C5 envNil sBase "songs" [("artist", Val.str "C. Debussy")]
      "title = x" rfl rfl).1 dSongs [] rfl
  · exact (claim_C5 envFail sBase "songs" [("artist", Val.str "C. Debussy")]
      "title = x" rfl rfl).2 (Err.sqlError "no such table") rfl

/-- C6: bulk_insert builds one parameterized INSERT template with one
placeholder per column, executes it once per row of values and commits
once at the end: on an engine whose template execution inserts one row,
success adds exactly N rows to the table, and any row failure leaves the
committed content unchanged (nothing was committed before the end). -/
theorem claim_C6 (env : Env) (s : S) (table : String) (columns : List String)
    (values : List (List Val)) (hdir : s.w.dirOk = true) (hcon : s.w.connOk = true) :
    (columns.map fun _ => "?").length = columns.length ∧
    (tableHas (dbContent s.w) table = true →
      (∀ d2 v, v ∈ values →
        env.run ("INSERT INTO " ++ table ++ " (" ++ String.intercalate ", " columns ++
            ") VALUES (" ++ String.intercalate ", " (columns.map fun _ => "?") ++ ")")
          (some v) d2 = Except.ok (addRow table v d2, [])) →
      bulk_insert env s table columns values =
        Except.ok (cleared s (some (values.foldl (fun dd v => addRow table v dd)
          (dbContent s.w)))) ∧
      rowCount table (values.foldl (fun dd v => addRow table v dd) (dbContent s.w)) =
        rowCount table (dbContent s.w) + values.length) ∧
    (∀ e dP, runMany env (bulkSql table columns) values (dbContent s.w) =
        Except.error (e, dP) →
      bulk_insert env s table columns values =
        Except.ok (cleared s (some (dbContent s.w)))) := by
  refine ⟨by simp, ?_, ?_⟩
  · intro htab henv
    refine ⟨?_, rowCount_fold table values (dbContent s.w) htab⟩
    exact bulk_insert_run_ok env s table columns values _ hdir hcon
      (runMany_fold env (bulkSql table columns) table values (dbContent s.w) henv)
  · intro e dP h
    exact bulk_insert_run_err env s table columns values e dP hdir hcon h

/-- C6 witness: bulk-inserting two rows into the sample songs table on
an inserting engine adds exactly two rows and commits the result. -/
theorem claim_C6_witness :
    bulk_insert envBulk sBase "songs" ["title", "artist"]
      [[Val.str "A", Val.str "B"], [Val.str "C", Val.str "D"]] =
      Except.ok (cleared sBase (some ⟨[⟨"songs",
        [[Val.str "Clair de Lune", Val.str "Debussy"],
         [Val.str "A", Val.str "B"], [Val.str "C", Val.str "D"]]⟩]⟩)) ∧
    rowCount "songs" ⟨[⟨"songs",
        [[Val.str "Clair de Lune", Val.str "Debussy"],
         [Val.str "A", Val.str "B"], [Val.str "C", Val.str "D"]]⟩]⟩ =
      rowCount "songs" (dbContent sBase.w) + 2 := by
  exact (claim_C6 envBulk sBase "songs" ["title", "artist"]
    [[Val.str "A", Val.str "B"], [Val.str "C", Val.str "D"]] rfl rfl).2.1
    rfl (fun d2 v hv => rfl)

/-- C7: table_exists interpolates the table name unescaped as a literal
into the catalog query SELECT name FROM sqlite_master WHERE
type='table' AND name='table_name' and, provided catalog rows are
nonempty tuples, returns true if and only if that query succeeds and
finds a matching row; every failure yields false. -/
theorem claim_C7 (env : Env) (s : S) (table_name : String)
    (hdir : s.w.dirOk = true) (hcon : s.w.connOk = true)
    (hrows : ∀ d2 rows,
      env.run ("SELECT name FROM sqlite_master WHERE type=" ++ sq ++ "table" ++ sq ++
          " AND name=" ++ sq ++ table_name ++ sq) none (dbContent s.w) =
        Except.ok (d2, rows) → ∀ r ∈ rows, r ≠ []) :
    ∀ s2 b, table_exists env s table_name = Except.ok (s2, b) →
      (b = true ↔ ∃ d2 rows,
        env.run ("SELECT name FROM sqlite_master WHERE type=" ++ sq ++ "table" ++ sq ++
            " AND name=" ++ sq ++ table_name ++ sq) none (dbContent s.w) =
          Except.ok (d2, rows) ∧ rows ≠ []) := by
  have hcat : ("SELECT name FROM sqlite_master WHERE type=" ++ sq ++ "table" ++ sq ++
      " AND name=" ++ sq ++ table_name ++ sq) = catalogSql table_name := rfl
  rw [hcat] at hrows ⊢
  intro s2 b hs2
  cases hrun : env.run (catalogSql table_name) none (dbContent s.w) with
  | ok dr =>
    obtain ⟨d, rows⟩ := dr
    rw [table_exists_run_ok env s table_name d rows hdir hcon hrun] at hs2
    obtain ⟨h1, h2⟩ := Prod.mk.inj (Except.ok.inj hs2)
    cases rows with
    | nil =>
      obtain rfl : b = false := h2.symm
      simp
    | cons r rs =>
      have hr : r ≠ [] := hrows d (r :: rs) hrun r (List.mem_cons_self r rs)
      cases r with
      | nil => exact absurd rfl hr
      | cons c cr =>
        obtain rfl : b = true := h2.symm
        simp only [true_iff]
        exact ⟨d, (c :: cr) :: rs, rfl, by simp⟩
  | error e =>
    rw [table_exists_run_err env s table_name e hdir hcon hrun] at hs2
    obtain ⟨h1, h2⟩ := Prod.mk.inj (Except.ok.inj hs2)
    obtain rfl : b = false := h2.symm
    simp

/-- C7 witness: on an engine whose catalog query finds one single-column
row, table_exists returns true, and the characterizing equivalence is
available at that instance. -/
theorem claim_C7_witness :
    table_exists envCatalog sBase "songs" =
      Except.ok (cleared sBase (some dSongs), true) ∧
    (true = true ↔ ∃ d2 rows,
      envCatalog.run (catalogSql "songs") none (dbContent sBase.w) =
        Except.ok (d2, rows) ∧ rows ≠ []) := by
  refine ⟨rfl, ?_⟩
  refine claim_C7 envCatalog sBase "songs" rfl rfl ?_ (cleared sBase (some dSongs)) true rfl
  intro d2 rows h r hr
  obtain ⟨h3, h4⟩ := Prod.mk.inj (Except.ok.inj h)
  rw [← h4] at hr
  simp only [List.mem_singleton] at hr
  rw [hr]
  simp

/-- C9 counterexample: with params provided as the empty tuple (a falsy
value), execute takes the unbound branch: on an engine where the unbound
run succeeds with the marker content while the bound run fails, the call
commits the marker content, which contradicts binding the provided
params (a bound execution fails and would have rolled back, leaving the
content unchanged). -/
theorem claim_C9_counterexample :
    execute envC9 sBase "INSERT INTO songs DEFAULT VALUES" (some []) =
      Except.ok (cleared sBase (some dMark)) ∧
    envC9.run "INSERT INTO songs DEFAULT VALUES" (some []) (dbContent sBase.w) =
      Except.error (Err.sqlError "bound execution") ∧
    dMark ≠ dbContent sBase.w := by
  exact ⟨rfl, rfl, by decide⟩

/-- C9 amended: execute binds parameters exactly when params is provided
and truthy (Python truthiness: nonempty); a provided empty params value
and an absent params value both execute without binding; on success the
transaction is committed and on failure it is rolled back, and the
connection is closed afterward in both cases. -/
theorem claim_C9_amended (env : Env) (s : S) (sql : String) (params : Option (List Val))
    (hdir : s.w.dirOk = true) (hcon : s.w.connOk = true) :
    (∀ d rows, env.run sql (pyParams params) (dbContent s.w) = Except.ok (d, rows) →
      execute env s sql params = Except.ok (cleared s (some d))) ∧
    (∀ e, env.run sql (pyParams params) (dbContent s.w) = Except.error e →
      execute env s sql params = Except.ok (cleared s (some (dbContent s.w)))) ∧
    pyParams none = none ∧
    pyParams (some []) = none ∧
    (∀ v vs, pyParams (some (v :: vs)) = some (v :: vs)) := by
  refine ⟨?_, ?_, rfl, rfl, fun v vs => rfl⟩
  · intro d rows h
    exact execute_run_ok env s sql params d rows hdir hcon h
  · intro e h
    exact execute_run_err env s sql params e hdir hcon h

/-- C9 amended witness: a bound call on the sample state commits on
success, instantiating the amended claim. -/
theorem claim_C9_amended_witness :
    execute envNil sBase "SELECT 1" (some [Val.int 1]) =
      Except.ok (cleared sBase (some dSongs)) := by
  exact (claim_C9_amended envNil sBase "SELECT 1" (some [Val.int 1]) rfl rfl).1
    dSongs [] rfl

/-- C10: the database path is made absolute once at construction and no
operation of the agent lifecycle ever changes the stored path field. -/
theorem claim_C10 (cwd name : String) (env : Env) (s : S)
    (sql schema_path table condition table_name : String)
    (params : Option (List Val)) (data : List (String × Val)) (columns : List String)
    (values : List (List Val)) (hcwd : isAbsolute cwd = true) (h0 : s.ag.conn = none) :
    ((mkAgent cwd name).db_name = abspath cwd name ∧
      isAbsolute ((mkAgent cwd name).db_name) = true) ∧
    (connect s).ag.db_name = s.ag.db_name ∧
    (disconnect s).ag.db_name = s.ag.db_name ∧
    (∀ s2, initialize_db env s schema_path = Except.ok s2 →
      s2.ag.db_name = s.ag.db_name) ∧
    (∀ s2, nuke_db s = Except.ok s2 → s2.ag.db_name = s.ag.db_name) ∧
    (∀ s2, execute env s sql params = Except.ok s2 → s2.ag.db_name = s.ag.db_name) ∧
    (∀ s2 r, fetch env s sql params = Except.ok (s2, r) →
      s2.ag.db_name = s.ag.db_name) ∧
    (∀ s2, insert env s table data = Except.ok s2 → s2.ag.db_name = s.ag.db_name) ∧
    (∀ s2, update env s table data condition = Except.ok s2 →
      s2.ag.db_name = s.ag.db_name) ∧
    (∀ s2, delete env s table condition = Except.ok s2 →
      s2.ag.db_name = s.ag.db_name) ∧
    (∀ s2, bulk_insert env s table columns values = Except.ok s2 →
      s2.ag.db_name = s.ag.db_name) ∧
    (∀ s2 b, table_exists env s table_name = Except.ok (s2, b) →
      s2.ag.db_name = s.ag.db_name) := by
  refine ⟨⟨rfl, isAbsolute_abspath cwd name hcwd⟩, connect_db_name s, disconnect_db_name s,
    ?_, ?_, ?_, ?_, ?_, ?_, ?_, ?_, ?_⟩
  · intro s2 h
    rcases initialize_db_ends env s schema_path h0 s2 h with rfl | ⟨x, rfl⟩ <;> rfl
  · intro s2 h
    rw [nuke_db_ends s s2 h]
    exact disconnect_db_name s
  · intro s2 h
    rcases execute_ends env s sql params h0 s2 h with rfl | ⟨x, rfl⟩ <;> rfl
  · intro s2 r h
    rcases fetch_ends env s sql params h0 s2 r h with rfl | ⟨x, rfl⟩ <;> rfl
  · intro s2 h
    rcases insert_ends env s table data h0 s2 h with rfl | ⟨x, rfl⟩ <;> rfl
  · intro s2 h
    rcases update_ends env s table data condition h0 s2 h with rfl | ⟨x, rfl⟩ <;> rfl
  · intro s2 h
    rcases delete_ends env s table condition h0 s2 h with rfl | ⟨x, rfl⟩ <;> rfl
  · intro s2 h
    rcases bulk_insert_ends env s table columns values h0 s2 h with rfl | ⟨x, rfl⟩ <;> rfl
  · intro s2 b h
    rcases table_exists_ends env s table_name h0 s2 b h with rfl | ⟨x, rfl⟩ <;> rfl

/-- C10 witness: a relative path is made absolute at construction, and a
concrete execute leaves the stored path unchanged. -/
theorem claim_C10_witness :
    isAbsolute ((mkAgent "/home/user" "src/db/music.db").db_name) = true ∧
    (cleared sBase (some dSongs)).ag.db_name = sBase.ag.db_name := by
  obtain ⟨hinit, hconn, hdisc, hinitdb, hnuke, hexec, hrest⟩ :=
    claim_C10 "/home/user" "src/db/music.db" envNil sBase
      "SELECT 1" "" "" "" "" none [] [] [] (by decide) rfl
  exact ⟨hinit.2, hexec (cleared sBase (some dSongs)) rfl⟩

end MusicClient
